import Mathlib

/-!
# Verification of the car-condition analysis engine

Shallow embedding of the multi-detector fusion and classification engine of
the `decentrathon` repository (files `analyze.py`, `offline_analyzer.py`,
`local_models_simulator.py`, `yolo_damage_detector.py`), together with
theorems settling the frozen specification claims.

All numeric scores are modelled as rationals (`ℚ`); image-derived quantities
(mean brightness, pixel percentages, contour counts, bounding boxes) are the
inputs of the embedded functions, since image decoding and the OpenCV
primitives are external collaborators per the specification.
-/

namespace CarCondition

/-- The four ordinal condition labels, as the literal strings the code emits
(`"Хорошее"` = Good, `"Удовлетворительное"` = Satisfactory,
`"Требует внимания"` = NeedsAttention, `"Плохое"` = Poor). -/
def goodLabel : String := "Хорошее"

def satisfactoryLabel : String := "Удовлетворительное"

def needsAttentionLabel : String := "Требует внимания"

def poorLabel : String := "Плохое"

/-- Status decision table shared verbatim by `analyze.py` (lines 105-116),
`offline_analyzer.analyze_image_offline` (lines 324-335) and
`local_models_simulator.analyze_image_local` (lines 336-347):
`len(issues) >= 3` → Poor, `len(issues) >= 1` → NeedsAttention,
`cleanliness < 0.7` → Satisfactory, else Good. -/
def classifyStatus (issueCount : ℕ) (cleanliness : ℚ) : String :=
  if issueCount ≥ 3 then poorLabel
  else if issueCount ≥ 1 then needsAttentionLabel
  else if cleanliness < 7/10 then satisfactoryLabel
  else goodLabel

/-- Status decision table of `yolo_damage_detector.analyze_with_yolo`
(lines 289-300): `total_issues >= 3` → Poor, `>= 2` → NeedsAttention,
`>= 1` → Satisfactory, else Good — a different, 4-tier table with no
cleanliness tie-break. -/
def yoloClassifyStatus (totalIssues : ℕ) : String :=
  if totalIssues ≥ 3 then poorLabel
  else if totalIssues ≥ 2 then needsAttentionLabel
  else if totalIssues ≥ 1 then satisfactoryLabel
  else goodLabel

/-- Presence flags of a condition report, one per canonical defect type. -/
structure Flags where
  scratches : Bool
  dents : Bool
  rust : Bool
  dirt : Bool
  cracks : Bool
deriving DecidableEq, Repr

/-- Number of defect types whose presence flag is set
(`sum([has_scratches, has_dents, has_rust, has_dirt, has_cracks])`). -/
def Flags.issueCount (f : Flags) : ℕ :=
  (f.scratches.toNat) + (f.dents.toNat) + (f.rust.toNat) + (f.dirt.toNat) +
    (f.cracks.toNat)

/-- Flag derivation of `yolo_damage_detector.analyze_with_yolo` lines 275-280:
scratches/dents/rust/cracks are hard-coded `False`
("Отключено для избежания ложных срабатываний") and only
`dirt = confidence_scores["dirt"] > 0.4` survives. -/
def yoloFlags (confDirt : ℚ) : Flags :=
  { scratches := false
    dents := false
    rust := false
    dirt := decide (confDirt > 2/5)
    cracks := false }

/-- Status of the YOLO structured-result branch as a function of the
aggregated dirt confidence. -/
def yoloStatus (confDirt : ℚ) : String :=
  yoloClassifyStatus (yoloFlags confDirt).issueCount

/-- Aggregated per-type confidence scores of a report. -/
structure ConfScores where
  scratches : ℚ
  dents : ℚ
  rust : ℚ
  dirt : ℚ
  cracks : ℚ
deriving DecidableEq, Repr

/-- Per-type presence thresholds of
`local_models_simulator.analyze_image_local` lines 316-320. -/
def rust_threshold : ℚ := 3/5

def crack_threshold : ℚ := 3/5

def dirt_threshold : ℚ := 2/5

def scratch_threshold : ℚ := 3/5

def dent_threshold : ℚ := 3/5

/-- Cleanliness floor of the `"Удовлетворительное"` (Satisfactory) tie-break,
`cleanliness_score < 0.7` at `local_models_simulator.py` line 342 (and the
identical checks in `analyze.py` / `offline_analyzer.py`). -/
def cleanliness_satisfactory_floor : ℚ := 7/10

/-- Presence-flag derivation of `local_models_simulator.analyze_image_local`
lines 316-320: `has_rust = confidence_scores["rust"] > 0.6`,
`has_cracks = ... > 0.6`, `has_dirt = ... > 0.4`,
`has_scratches = ... > 0.6`, `has_dents = ... > 0.6`. -/
def localFlags (cs : ConfScores) : Flags :=
  { scratches := decide (cs.scratches > 3/5)
    dents := decide (cs.dents > 3/5)
    rust := decide (cs.rust > 3/5)
    dirt := decide (cs.dirt > 2/5)
    cracks := decide (cs.cracks > 3/5) }

/-- Per-type confidence aggregation: `local_models_simulator` lines 288-294
(`max([s.get("confidence", 0) for s in findings] + [0])`) and the running
`confidence_scores[t] = max(confidence_scores[t], confidence)` of
`yolo_damage_detector.analyze_damage_from_detections` lines 156-159, both
a fold of `max` from initial value `0.0`. -/
def aggConfidence (confs : List ℚ) : ℚ :=
  confs.foldl max 0

/-- Damage count of `yolo_damage_detector.opencv_fallback_analysis`
line 214: the number of Canny-edge contours of area above 100. -/
def fallback_damage_count (contourAreas : List ℚ) : ℕ :=
  (contourAreas.filter (fun a => a > 100)).length

/-- Status of `opencv_fallback_analysis` line 223:
`"Требует внимания" if damage_count > 15 else "Удовлетворительное"`. -/
def opencv_fallback_status (contourAreas : List ℚ) : String :=
  if fallback_damage_count contourAreas > 15 then needsAttentionLabel
  else satisfactoryLabel

end CarCondition

namespace CarCondition

lemma foldl_max_le_self (l : List ℚ) (a : ℚ) : a ≤ l.foldl max a := by
  induction l generalizing a with
  | nil => simp
  | cons x xs ih => exact le_trans (le_max_left a x) (ih (max a x))

lemma mem_le_foldl_max (l : List ℚ) (a c : ℚ) (h : c ∈ l) :
    c ≤ l.foldl max a := by
  induction l generalizing a with
  | nil => cases h
  | cons x xs ih =>
    rcases List.mem_cons.mp h with rfl | h'
    · exact le_trans (le_max_right a c) (foldl_max_le_self xs (max a c))
    · exact ih (max a x) h'

lemma foldl_max_self_or_mem (l : List ℚ) (a : ℚ) :
    l.foldl max a = a ∨ l.foldl max a ∈ l := by
  induction l generalizing a with
  | nil => exact Or.inl rfl
  | cons x xs ih =>
    rcases ih (max a x) with h | h
    · rcases le_total a x with hax | hxa
      · right
        rw [List.foldl_cons, h, max_eq_right hax]
        exact List.mem_cons_self x xs
      · left
        rw [List.foldl_cons, h, max_eq_left hxa]
    · right
      exact List.mem_cons_of_mem x h

lemma aggConfidence_nonneg (l : List ℚ) : 0 ≤ aggConfidence l :=
  foldl_max_le_self l 0

lemma le_aggConfidence (l : List ℚ) (c : ℚ) (h : c ∈ l) :
    c ≤ aggConfidence l :=
  mem_le_foldl_max l 0 c h

lemma aggConfidence_le (l : List ℚ) (b : ℚ) (hb : 0 ≤ b)
    (h : ∀ c ∈ l, c ≤ b) : aggConfidence l ≤ b := by
  rcases foldl_max_self_or_mem l 0 with h0 | hm
  · rw [aggConfidence, h0]; exact hb
  · exact h _ hm

/-- C2: for a nonempty list of finding confidences (all nonnegative, as every
detector emits) the aggregated per-type confidence is an element of the list
that bounds every element — i.e. it is exactly the maximum; for zero findings
of a type the aggregated confidence is 0.0, and at confidence 0 every
presence flag of the local classifier is false, as is the YOLO dirt flag. -/
theorem C2_confidence_is_max (c : ℚ) (confs : List ℚ) (hc : 0 ≤ c) :
    (aggConfidence (c :: confs) ∈ c :: confs ∧
      ∀ d ∈ c :: confs, d ≤ aggConfidence (c :: confs)) ∧
    (aggConfidence ([] : List ℚ) = 0 ∧
      localFlags ⟨0, 0, 0, 0, 0⟩ = ⟨false, false, false, false, false⟩ ∧
      (yoloFlags 0).dirt = false) := by
  refine ⟨⟨?_, fun d hd => le_aggConfidence _ d hd⟩, rfl, ?_, ?_⟩
  · rcases foldl_max_self_or_mem (c :: confs) 0 with h0 | hm
    · have hmem : c ∈ c :: confs := List.mem_cons_self c confs
      have hle : c ≤ aggConfidence (c :: confs) := le_aggConfidence _ c hmem
      have : aggConfidence (c :: confs) = c := by
        have : aggConfidence (c :: confs) = 0 := h0
        have hc0 : c = 0 := le_antisymm (this ▸ hle) hc
        rw [this, hc0]
      rw [this]; exact hmem
    · exact hm
  · simp only [localFlags]
    norm_num
  · simp only [yoloFlags]
    norm_num

/-- C2 witness at a concrete finding list. -/
theorem C2_confidence_is_max_witness :
    (aggConfidence ((1 : ℚ) :: []) ∈ (1 : ℚ) :: [] ∧
      ∀ d ∈ (1 : ℚ) :: [], d ≤ aggConfidence ((1 : ℚ) :: [])) ∧
    (aggConfidence ([] : List ℚ) = 0 ∧
      localFlags ⟨0, 0, 0, 0, 0⟩ = ⟨false, false, false, false, false⟩ ∧
      (yoloFlags 0).dirt = false) :=
  C2_confidence_is_max 1 [] (by norm_num)

/-- C3: in the YOLO structured-result branch the scratches, dents, rust and
cracks presence flags are unconditionally false, and the dirt flag is true
iff the aggregated dirt confidence exceeds 0.4. -/
theorem C3_yolo_only_dirt (c : ℚ) :
    (yoloFlags c).scratches = false ∧ (yoloFlags c).dents = false ∧
    (yoloFlags c).rust = false ∧ (yoloFlags c).cracks = false ∧
    ((yoloFlags c).dirt = true ↔ 2/5 < c) := by
  simp [yoloFlags]

/-- C7: each local presence flag is set iff the type's aggregated confidence
strictly exceeds its own fixed threshold; the thresholds are rust 0.6,
crack 0.6, dirt 0.4, scratch 0.6, dent 0.6 with Satisfactory floor 0.7
(used by the zero-issue status tie-break), and the dirt threshold is
strictly below each of the other four. -/
theorem C7_per_type_thresholds (cs : ConfScores) (clean : ℚ) :
    ((localFlags cs).rust = true ↔ rust_threshold < cs.rust) ∧
    ((localFlags cs).cracks = true ↔ crack_threshold < cs.cracks) ∧
    ((localFlags cs).dirt = true ↔ dirt_threshold < cs.dirt) ∧
    ((localFlags cs).scratches = true ↔ scratch_threshold < cs.scratches) ∧
    ((localFlags cs).dents = true ↔ dent_threshold < cs.dents) ∧
    (rust_threshold = 3/5 ∧ crack_threshold = 3/5 ∧ dirt_threshold = 2/5 ∧
      scratch_threshold = 3/5 ∧ dent_threshold = 3/5 ∧
      cleanliness_satisfactory_floor = 7/10) ∧
    (classifyStatus 0 clean = satisfactoryLabel ↔
      clean < cleanliness_satisfactory_floor) ∧
    (dirt_threshold < rust_threshold ∧ dirt_threshold < crack_threshold ∧
      dirt_threshold < scratch_threshold ∧ dirt_threshold < dent_threshold) := by
  refine ⟨?_, ?_, ?_, ?_, ?_, ⟨rfl, rfl, rfl, rfl, rfl, rfl⟩, ?_, ?_⟩
  · simp [localFlags, rust_threshold]
  · simp [localFlags, crack_threshold]
  · simp [localFlags, dirt_threshold]
  · simp [localFlags, scratch_threshold]
  · simp [localFlags, dent_threshold]
  · unfold classifyStatus cleanliness_satisfactory_floor
    split_ifs with h1 h2 h3 <;>
      simp_all [poorLabel, needsAttentionLabel, satisfactoryLabel, goodLabel]
  · refine ⟨?_, ?_, ?_, ?_⟩ <;>
      · simp only [dirt_threshold, rust_threshold, crack_threshold,
          scratch_threshold, dent_threshold]
        norm_num

/-- C10: the raw-feature OpenCV fallback's status is "Требует внимания"
(NeedsAttention) iff the count of filtered contours (area > 100) exceeds 15
and "Удовлетворительное" (Satisfactory) otherwise; it is never "Хорошее"
(Good) and never "Плохое" (Poor), for any contour-area list. -/
theorem C10_fallback_two_statuses (contourAreas : List ℚ) :
    (opencv_fallback_status contourAreas = needsAttentionLabel ↔
      15 < fallback_damage_count contourAreas) ∧
    (opencv_fallback_status contourAreas = satisfactoryLabel ↔
      fallback_damage_count contourAreas ≤ 15) ∧
    opencv_fallback_status contourAreas ≠ goodLabel ∧
    opencv_fallback_status contourAreas ≠ poorLabel := by
  unfold opencv_fallback_status
  split_ifs with h <;>
    simp_all [needsAttentionLabel, satisfactoryLabel, goodLabel, poorLabel]

end CarCondition

namespace CarCondition

/-- A raw per-finding record as produced by the OpenCV detectors of
`local_models_simulator.py` (a dict with position, size and confidence). -/
structure Pred where
  x : ℚ
  y : ℚ
  width : ℚ
  height : ℚ
  confidence : ℚ
deriving DecidableEq, Repr

/-- A per-finding detail record (`damage_detail` dict).  The human-readable
`description` f-string is presentational and is not modelled. -/
structure DamageDetail where
  type : String
  confidence : ℚ
  x : ℚ
  y : ℚ
  width : ℚ
  height : ℚ
  area : ℚ
  severity : String
  detectedBy : String
deriving DecidableEq, Repr

/-- Severity rule of `local_models_simulator.create_damage_detail`
lines 193-199: `severe` if `area > 10000 and confidence > 0.7`,
`moderate` if `area > 5000 and confidence > 0.5`, else `minor`. -/
def create_damage_detail_severity (area confidence : ℚ) : String :=
  if area > 10000 ∧ confidence > 7/10 then "severe"
  else if area > 5000 ∧ confidence > 1/2 then "moderate"
  else "minor"

/-- `local_models_simulator.create_damage_detail` (lines 182-220): enriches a
prediction with its area (`width * height`) and severity. -/
def create_damage_detail (p : Pred) (damageType modelName : String) :
    DamageDetail :=
  { type := damageType
    confidence := p.confidence
    x := p.x
    y := p.y
    width := p.width
    height := p.height
    area := p.width * p.height
    severity := create_damage_detail_severity (p.width * p.height) p.confidence
    detectedBy := modelName }

/-- Severity rule of `yolo_damage_detector.analyze_damage_from_detections`
line 162: `"severe" if confidence > 0.8 else "moderate" if confidence > 0.5
else "minor"` — a function of confidence only. -/
def yolo_severity (confidence : ℚ) : String :=
  if confidence > 4/5 then "severe"
  else if confidence > 1/2 then "moderate"
  else "minor"

/-- A single YOLO detection box (`detection` dict of
`yolo_damage_detector.detect_with_yolo`; `area` is stored there as
`width * height`). -/
structure Detection where
  className : String
  classId : ℕ
  confidence : ℚ
  x : ℚ
  y : ℚ
  width : ℚ
  height : ℚ
  area : ℚ
deriving DecidableEq, Repr

/-- ASCII lower-casing of one character, modelling Python `str.lower()` on
the ASCII class names YOLO emits. -/
def lowerChar (c : Char) : Char :=
  if 65 ≤ c.toNat ∧ c.toNat ≤ 90 then
    Char.ofNat (c.toNat + 32)
  else c

/-- ASCII lower-casing of a class-name string. -/
def lowerStr (s : String) : String :=
  String.mk (s.data.map lowerChar)

/-- Whether the first character list leads (is an initial segment of) the
second. -/
def leadsWith : List Char → List Char → Bool
  | [], _ => true
  | _ :: _, [] => false
  | c :: cs, d :: ds => c == d && leadsWith cs ds

/-- Whether `needle` occurs as a contiguous subsequence of the second list. -/
def hasSubSeq (needle : List Char) : List Char → Bool
  | [] => leadsWith needle []
  | c :: cs => leadsWith needle (c :: cs) || hasSubSeq needle cs

/-- Python's `needle in hay` substring test on strings. -/
def strContains (hay needle : String) : Bool :=
  hasSubSeq needle.data hay.data

/-- Keyword-based damage classification of
`yolo_damage_detector.analyze_damage_from_detections` lines 144-155
(substring matching on the lower-cased class name). -/
def yoloDamageType (className : String) : Option String :=
  let c := lowerStr className
  if strContains c "scratch" || strContains c "scrape" then some "scratches"
  else if strContains c "dent" || strContains c "damage" then some "dents"
  else if strContains c "rust" || strContains c "corrosion" then some "rust"
  else if strContains c "dirt" || strContains c "mud" || strContains c "stain"
    then some "dirt"
  else if strContains c "crack" || strContains c "break" then some "cracks"
  else none

/-- Python `damage_type.rstrip('s')`: drop all trailing `'s'` characters
(`yolo_damage_detector.py` line 165). -/
def rstripS (s : String) : String :=
  String.mk ((s.data.reverse.dropWhile (fun ch => ch == 's')).reverse)

/-- One YOLO per-finding detail record
(`yolo_damage_detector.analyze_damage_from_detections` lines 164-175). -/
def yoloDamageDetail (damageType : String) (d : Detection) : DamageDetail :=
  { type := rstripS damageType
    confidence := d.confidence
    x := d.x
    y := d.y
    width := d.width
    height := d.height
    area := d.area
    severity := yolo_severity d.confidence
    detectedBy := "YOLOv8 детектор" }

/-- The uncapped YOLO detail list: one record per detection whose class name
matches a damage keyword (first loop of `analyze_damage_from_detections`). -/
def yoloDamageDetails (dets : List Detection) : List DamageDetail :=
  dets.filterMap (fun d =>
    match yoloDamageType d.className with
    | some t => some (yoloDamageDetail t d)
    | none => none)

/-- Whether a vehicle class was recognized
(`yolo_damage_detector.analyze_damage_from_detections` lines 140-142). -/
def carDetected (dets : List Detection) : Bool :=
  dets.any fun d =>
    (["car", "truck", "bus", "vehicle"] : List String).contains
      (lowerStr d.className)

/-- A YOLO detection of a tiny box (1×1, area 1) carrying a very high
confidence — the shape of input on which the YOLO severity rule diverges
from the conjunctive area-and-confidence rule. -/
def tinyHighConfDet : Detection :=
  { className := "dirt"
    classId := 84
    confidence := 9/10
    x := 0
    y := 0
    width := 1
    height := 1
    area := 1 }

/-- C6 counterexample: in the YOLO backend a finding of area 1 — far below
the high-area threshold 10000 — is still graded "severe" because its
confidence is 0.9: the YOLO severity rule reads confidence alone, so
severity is not conjunctive on area AND confidence in every backend that
builds detail records. -/
theorem C6_yolo_severity_ignores_area :
    (yoloDamageDetail "dirt" tinyHighConfDet).severity = "severe" ∧
    tinyHighConfDet.area ≤ 10000 ∧ tinyHighConfDet.confidence > 7/10 := by
  refine ⟨?_, by norm_num [tinyHighConfDet], by norm_num [tinyHighConfDet]⟩
  show yolo_severity tinyHighConfDet.confidence = "severe"
  norm_num [yolo_severity, tinyHighConfDet]

/-- C6 (amended): in the local-models backend, severity is conjunctive —
"severe" iff area > 10000 and confidence > 0.7, else "moderate" iff
area > 5000 and confidence > 0.5, else "minor"; in the YOLO backend,
severity depends on confidence only, with cutoffs 0.8 and 0.5. -/
theorem C6_severity_rules (p : Pred) (t m : String) (c : ℚ) :
    (((create_damage_detail p t m).severity = "severe" ↔
        p.width * p.height > 10000 ∧ p.confidence > 7/10) ∧
      ((create_damage_detail p t m).severity = "moderate" ↔
        ¬(p.width * p.height > 10000 ∧ p.confidence > 7/10) ∧
          (p.width * p.height > 5000 ∧ p.confidence > 1/2)) ∧
      ((create_damage_detail p t m).severity = "minor" ↔
        ¬(p.width * p.height > 10000 ∧ p.confidence > 7/10) ∧
          ¬(p.width * p.height > 5000 ∧ p.confidence > 1/2))) ∧
    ((yolo_severity c = "severe" ↔ c > 4/5) ∧
      (yolo_severity c = "moderate" ↔ ¬(c > 4/5) ∧ c > 1/2) ∧
      (yolo_severity c = "minor" ↔ ¬(c > 4/5) ∧ ¬(c > 1/2))) := by
  constructor
  · unfold create_damage_detail create_damage_detail_severity
    refine ⟨?_, ?_, ?_⟩ <;> · split_ifs with h1 h2 <;> simp_all
  · unfold yolo_severity
    refine ⟨?_, ?_, ?_⟩ <;> · split_ifs with h1 h2 <;> simp_all

end CarCondition

namespace CarCondition

/-- Outcome of a command-line entry point: either an early structured error
(the printed message and the process exit code) or the analysis actually
running. -/
inductive CliStep where
  | errorOut (msg : String) (exitCode : ℕ)
  | ranAnalysis
deriving DecidableEq, Repr

/-- `analyze.py main` (lines 120-136): argument-count check, then the
existence check `{"error": "Image file not found"}` with `sys.exit(1)`
before `analyze_image` is ever called. -/
def analyze_py_main (argc : ℕ) (pathExists : Bool) : CliStep :=
  if argc ≠ 2 then .errorOut "Image path required" 1
  else if pathExists = false then .errorOut "Image file not found" 1
  else .ranAnalysis

/-- `offline_analyzer.py main` (lines 339-355): identical early checks. -/
def offline_main (argc : ℕ) (pathExists : Bool) : CliStep :=
  if argc ≠ 2 then .errorOut "Image path required" 1
  else if pathExists = false then .errorOut "Image file not found" 1
  else .ranAnalysis

/-- `local_models_simulator.py main` (lines 373-389): same structure but the
messages are Russian (`"Файл изображения не найден"`). -/
def local_main (argc : ℕ) (pathExists : Bool) : CliStep :=
  if argc ≠ 2 then .errorOut "Требуется путь к изображению" 1
  else if pathExists = false then .errorOut "Файл изображения не найден" 1
  else .ranAnalysis

/-- `yolo_damage_detector.py main` (lines 325-338): on a missing path,
`analyze_with_yolo` returns the error dict
`{"error": "Файл изображения не найден"}` (line 248), which `main` prints and
then falls through — no `sys.exit(1)` on this path, so the process exits 0. -/
def yolo_main (argc : ℕ) (pathExists : Bool) : CliStep :=
  if argc < 2 then .errorOut "Требуется путь к изображению" 1
  else if pathExists = false then .errorOut "Файл изображения не найден" 0
  else .ranAnalysis

/-- C5 counterexample: invoking the YOLO entry point on a nonexistent path
yields the Russian message "Файл изображения не найден" — not the claimed
`{"error": "Image file not found"}` — and process exit code 0, not
non-zero. -/
theorem C5_yolo_error_differs :
    yolo_main 2 false = CliStep.errorOut "Файл изображения не найден" 0 ∧
    "Файл изображения не найден" ≠ "Image file not found" := by
  exact ⟨rfl, by decide⟩

/-- C5 (amended): on a nonexistent path, every entry point surfaces a
structured error before any detection is attempted; `analyze.py` and
`offline_analyzer.py` emit exactly "Image file not found" with exit code 1,
while `local_models_simulator.py` emits "Файл изображения не найден" with
exit code 1 and `yolo_damage_detector.py` emits "Файл изображения не найден"
with exit code 0. -/
theorem C5_missing_file_behaviour :
    analyze_py_main 2 false = CliStep.errorOut "Image file not found" 1 ∧
    offline_main 2 false = CliStep.errorOut "Image file not found" 1 ∧
    local_main 2 false = CliStep.errorOut "Файл изображения не найден" 1 ∧
    yolo_main 2 false = CliStep.errorOut "Файл изображения не найден" 0 ∧
    analyze_py_main 2 false ≠ CliStep.ranAnalysis ∧
    offline_main 2 false ≠ CliStep.ranAnalysis ∧
    local_main 2 false ≠ CliStep.ranAnalysis ∧
    yolo_main 2 false ≠ CliStep.ranAnalysis := by
  refine ⟨rfl, rfl, rfl, rfl, ?_, ?_, ?_, ?_⟩ <;> decide

end CarCondition

namespace CarCondition

/-- Brightness component of `offline_analyzer.analyze_dirt_heuristic`
line 185: `min(mean_brightness / 200.0, 1.0)`. -/
def brightness_score (meanBrightness : ℚ) : ℚ :=
  min (meanBrightness / 200) 1

/-- Uniformity component, line 186: `max(0, 1.0 - brightness_std / 100.0)`. -/
def uniformity_score (brightnessStd : ℚ) : ℚ :=
  max 0 (1 - brightnessStd / 100)

/-- Cleanliness of the offline analyzer, line 189:
`brightness_score * 0.6 + uniformity_score * 0.4`. -/
def offline_cleanliness (meanBrightness brightnessStd : ℚ) : ℚ :=
  brightness_score meanBrightness * (3/5) +
    uniformity_score brightnessStd * (2/5)

/-- Offline dirt confidence, line 202: `1.0 - cleanliness_score`. -/
def offline_dirt_confidence (meanBrightness brightnessStd : ℚ) : ℚ :=
  1 - offline_cleanliness meanBrightness brightnessStd

/-- Offline rust confidence, line 64: `min(rust_percentage * 10, 1.0)`. -/
def offline_rust_confidence (rustPercentage : ℚ) : ℚ :=
  min (rustPercentage * 10) 1

/-- Offline scratch confidence, line 100: `min(scratch_count / 20.0, 1.0)`. -/
def offline_scratch_confidence (scratchCount : ℕ) : ℚ :=
  min ((scratchCount : ℚ) / 20) 1

/-- Offline dent confidence, line 150: `min(total_dents / 10.0, 1.0)`. -/
def offline_dent_confidence (totalDents : ℕ) : ℚ :=
  min ((totalDents : ℚ) / 10) 1

/-- Offline crack confidence, line 253: `min(crack_count / 15.0, 1.0)`. -/
def offline_crack_confidence (crackCount : ℕ) : ℚ :=
  min ((crackCount : ℚ) / 15) 1

/-- YOLO structured-branch cleanliness
(`yolo_damage_detector.analyze_with_yolo` lines 283-284):
`max(0.0, 1.0 - confidence_scores["dirt"] * 0.8)`. -/
def yolo_cleanliness (confDirt : ℚ) : ℚ :=
  max 0 (1 - confDirt * (4/5))

/-- Local-backend cleanliness (`local_models_simulator.py` line 313):
`1.0 - (conf_dirt if conf_dirt > 0 else 0.0)`. -/
def local_cleanliness (confDirt : ℚ) : ℚ :=
  1 - (if confDirt > 0 then confDirt else 0)

/-- Per-detection confidence of `detect_scratches_opencv` line 65:
`min(0.3 + (area / 10000), 0.9)`. -/
def scratch_pred_confidence (area : ℚ) : ℚ :=
  min (3/10 + area / 10000) (9/10)

/-- Per-detection confidence of `detect_dents_opencv` line 103:
`min(0.3 + (area / 20000), 0.85)`. -/
def dent_pred_confidence (area : ℚ) : ℚ :=
  min (3/10 + area / 20000) (17/20)

/-- Per-detection confidence of `detect_rust_opencv` line 145:
`min(0.4 + (area / 15000), 0.8)`. -/
def rust_pred_confidence (area : ℚ) : ℚ :=
  min (2/5 + area / 15000) (4/5)

/-- Per-detection confidence of `detect_dirt_opencv` line 176:
`min(0.3 + (area / 10000), 0.7)`. -/
def dirt_pred_confidence (area : ℚ) : ℚ :=
  min (3/10 + area / 10000) (7/10)

/-- Cleanliness of `opencv_fallback_analysis` line 222:
`1.0 - min(damage_count / 50.0, 0.8)`. -/
def fallback_cleanliness (contourAreas : List ℚ) : ℚ :=
  1 - min ((fallback_damage_count contourAreas : ℚ) / 50) (4/5)

/-- Confidence scores of `opencv_fallback_analysis` lines 232-238. -/
def fallback_confidences (contourAreas : List ℚ) : ConfScores :=
  let n := fallback_damage_count contourAreas
  { scratches := if n > 20 then 3/10 else 0
    dents := if n > 10 then 3/10 else 0
    rust := 0
    dirt := if n > 30 then 2/5 else 0
    cracks := if n > 15 then 3/10 else 0 }

lemma min_unit_bounds (x c : ℚ) (hx : 0 ≤ x) (hc0 : 0 ≤ c) (hc1 : c ≤ 1) :
    0 ≤ min x c ∧ min x c ≤ 1 :=
  ⟨le_min hx hc0, le_trans (min_le_right x c) hc1⟩

lemma brightness_score_bounds (mb : ℚ) (hmb : 0 ≤ mb) :
    0 ≤ brightness_score mb ∧ brightness_score mb ≤ 1 :=
  min_unit_bounds _ _ (by positivity) (by norm_num) (by norm_num)

lemma uniformity_score_bounds (sd : ℚ) (hsd : 0 ≤ sd) :
    0 ≤ uniformity_score sd ∧ uniformity_score sd ≤ 1 := by
  unfold uniformity_score
  constructor
  · exact le_max_left 0 _
  · have h : sd / 100 ≥ 0 := by positivity
    have : (1 : ℚ) - sd / 100 ≤ 1 := by linarith
    exact max_le (by norm_num) this

lemma offline_cleanliness_bounds (mb sd : ℚ) (hmb : 0 ≤ mb) (hsd : 0 ≤ sd) :
    0 ≤ offline_cleanliness mb sd ∧ offline_cleanliness mb sd ≤ 1 := by
  obtain ⟨hb0, hb1⟩ := brightness_score_bounds mb hmb
  obtain ⟨hu0, hu1⟩ := uniformity_score_bounds sd hsd
  unfold offline_cleanliness
  constructor <;> nlinarith

lemma yolo_cleanliness_bounds (c : ℚ) (hc : 0 ≤ c) :
    0 ≤ yolo_cleanliness c ∧ yolo_cleanliness c ≤ 1 := by
  unfold yolo_cleanliness
  refine ⟨le_max_left 0 _, max_le (by norm_num) (by nlinarith)⟩

lemma local_cleanliness_bounds (c : ℚ) (_hc0 : 0 ≤ c) (hc1 : c ≤ 7/10) :
    0 ≤ local_cleanliness c ∧ local_cleanliness c ≤ 1 := by
  unfold local_cleanliness
  split_ifs with h <;> constructor <;> linarith

/-- Softmax normalization of `analyze.py` lines 66-71 applied to the 3-entry
cleanliness output vector.  The exponential is external numeric code, so the
embedding takes the exponentiated shifted logits `exp(x_i - max(x))` — which
are strictly positive for every real logit vector — as its inputs and
performs the normalization `exp_x / exp_x.sum()`. -/
def softmax3 (w0 w1 w2 : ℚ) : ℚ × ℚ × ℚ :=
  (w0 / (w0 + w1 + w2), w1 / (w0 + w1 + w2), w2 / (w0 + w1 + w2))

/-- `analyze.py` line 77: `cleanliness_score = cleanliness_probs[2]`, the
softmax probability of the "clean" category. -/
def analyze_py_cleanliness (w0 w1 w2 : ℚ) : ℚ :=
  (softmax3 w0 w1 w2).2.2

lemma softmax3_bounds (w0 w1 w2 : ℚ) (h0 : 0 < w0) (h1 : 0 < w1)
    (h2 : 0 < w2) :
    (0 ≤ (softmax3 w0 w1 w2).1 ∧ (softmax3 w0 w1 w2).1 ≤ 1) ∧
    (0 ≤ (softmax3 w0 w1 w2).2.1 ∧ (softmax3 w0 w1 w2).2.1 ≤ 1) ∧
    (0 ≤ (softmax3 w0 w1 w2).2.2 ∧ (softmax3 w0 w1 w2).2.2 ≤ 1) := by
  have hs : 0 < w0 + w1 + w2 := by linarith
  unfold softmax3
  refine ⟨⟨div_nonneg h0.le hs.le, (div_le_one hs).mpr (by linarith)⟩,
    ⟨div_nonneg h1.le hs.le, (div_le_one hs).mpr (by linarith)⟩,
    ⟨div_nonneg h2.le hs.le, (div_le_one hs).mpr (by linarith)⟩⟩

/-- C4: in every detector backend — the `analyze.py` ONNX model (whose
cleanliness is the softmax probability of the "clean" category, over the
strictly positive exponentiated logits), the offline analyzer, the YOLO
structured branch, the local-models simulator, and the raw-feature fallback —
the cleanliness value lies in [0,1] and every per-type confidence score lies
in [0,1], given the nonnegativity of the underlying image statistics
(mean brightness, standard deviation, mask percentages, bounding-box areas)
and detection confidences in [0,1]. -/
theorem C4_scores_in_unit_interval
    (w0 w1 w2 : ℚ) (hw0 : 0 < w0) (hw1 : 0 < w1) (hw2 : 0 < w2)
    (mb sd pct a : ℚ) (hmb : 0 ≤ mb) (hsd : 0 ≤ sd) (hpct : 0 ≤ pct)
    (ha : 0 ≤ a) (ns nd nc : ℕ) (dirtConfs : List ℚ)
    (hdc : ∀ c ∈ dirtConfs, 0 ≤ c ∧ c ≤ 1)
    (areas : List ℚ) (contourAreas : List ℚ) :
    (0 ≤ analyze_py_cleanliness w0 w1 w2 ∧
      analyze_py_cleanliness w0 w1 w2 ≤ 1) ∧
    (0 ≤ (softmax3 w0 w1 w2).1 ∧ (softmax3 w0 w1 w2).1 ≤ 1) ∧
    (0 ≤ (softmax3 w0 w1 w2).2.1 ∧ (softmax3 w0 w1 w2).2.1 ≤ 1) ∧
    (0 ≤ offline_cleanliness mb sd ∧ offline_cleanliness mb sd ≤ 1) ∧
    (0 ≤ offline_rust_confidence pct ∧ offline_rust_confidence pct ≤ 1) ∧
    (0 ≤ offline_scratch_confidence ns ∧ offline_scratch_confidence ns ≤ 1) ∧
    (0 ≤ offline_dent_confidence nd ∧ offline_dent_confidence nd ≤ 1) ∧
    (0 ≤ offline_crack_confidence nc ∧ offline_crack_confidence nc ≤ 1) ∧
    (0 ≤ offline_dirt_confidence mb sd ∧ offline_dirt_confidence mb sd ≤ 1) ∧
    (0 ≤ aggConfidence dirtConfs ∧ aggConfidence dirtConfs ≤ 1) ∧
    (0 ≤ yolo_cleanliness (aggConfidence dirtConfs) ∧
      yolo_cleanliness (aggConfidence dirtConfs) ≤ 1) ∧
    (0 ≤ scratch_pred_confidence a ∧ scratch_pred_confidence a ≤ 1) ∧
    (0 ≤ dent_pred_confidence a ∧ dent_pred_confidence a ≤ 1) ∧
    (0 ≤ rust_pred_confidence a ∧ rust_pred_confidence a ≤ 1) ∧
    (0 ≤ dirt_pred_confidence a ∧ dirt_pred_confidence a ≤ 1) ∧
    (0 ≤ local_cleanliness (aggConfidence (areas.map dirt_pred_confidence)) ∧
      local_cleanliness (aggConfidence (areas.map dirt_pred_confidence)) ≤ 1) ∧
    (0 ≤ fallback_cleanliness contourAreas ∧
      fallback_cleanliness contourAreas ≤ 1) ∧
    (0 ≤ (fallback_confidences contourAreas).scratches ∧
      (fallback_confidences contourAreas).scratches ≤ 1) ∧
    (0 ≤ (fallback_confidences contourAreas).dents ∧
      (fallback_confidences contourAreas).dents ≤ 1) ∧
    (0 ≤ (fallback_confidences contourAreas).rust ∧
      (fallback_confidences contourAreas).rust ≤ 1) ∧
    (0 ≤ (fallback_confidences contourAreas).dirt ∧
      (fallback_confidences contourAreas).dirt ≤ 1) ∧
    (0 ≤ (fallback_confidences contourAreas).cracks ∧
      (fallback_confidences contourAreas).cracks ≤ 1) := by
  have hclean := offline_cleanliness_bounds mb sd hmb hsd
  have hagg0 : 0 ≤ aggConfidence dirtConfs := aggConfidence_nonneg dirtConfs
  have hagg1 : aggConfidence dirtConfs ≤ 1 :=
    aggConfidence_le dirtConfs 1 (by norm_num) (fun c hc => (hdc c hc).2)
  have hld0 : 0 ≤ aggConfidence (areas.map dirt_pred_confidence) :=
    aggConfidence_nonneg _
  have hld1 : aggConfidence (areas.map dirt_pred_confidence) ≤ 7/10 := by
    refine aggConfidence_le _ _ (by norm_num) ?_
    intro c hc
    obtain ⟨b, _, rfl⟩ := List.mem_map.mp hc
    exact min_le_right _ _
  have hfb0 : 0 ≤ min ((fallback_damage_count contourAreas : ℚ) / 50) (4/5) :=
    le_min (by positivity) (by norm_num)
  have hfb1 : min ((fallback_damage_count contourAreas : ℚ) / 50) (4/5) ≤ 4/5 :=
    min_le_right _ _
  obtain ⟨hs0, hs1, hs2⟩ := softmax3_bounds w0 w1 w2 hw0 hw1 hw2
  refine ⟨hs2, hs0, hs1, hclean,
    min_unit_bounds _ _ (mul_nonneg hpct (by norm_num)) (by norm_num)
      (by norm_num),
    min_unit_bounds _ _ (by positivity) (by norm_num) (by norm_num),
    min_unit_bounds _ _ (by positivity) (by norm_num) (by norm_num),
    min_unit_bounds _ _ (by positivity) (by norm_num) (by norm_num),
    ?_,
    ⟨hagg0, hagg1⟩,
    yolo_cleanliness_bounds _ hagg0,
    min_unit_bounds _ _ (add_nonneg (by norm_num) (div_nonneg ha (by norm_num)))
      (by norm_num) (by norm_num),
    min_unit_bounds _ _ (add_nonneg (by norm_num) (div_nonneg ha (by norm_num)))
      (by norm_num) (by norm_num),
    min_unit_bounds _ _ (add_nonneg (by norm_num) (div_nonneg ha (by norm_num)))
      (by norm_num) (by norm_num),
    min_unit_bounds _ _ (add_nonneg (by norm_num) (div_nonneg ha (by norm_num)))
      (by norm_num) (by norm_num),
    local_cleanliness_bounds _ hld0 hld1,
    ?_, ?_, ?_, ?_, ?_, ?_⟩
  · obtain ⟨h0, h1⟩ := hclean
    unfold offline_dirt_confidence
    constructor <;> linarith
  · unfold fallback_cleanliness
    constructor <;> linarith
  all_goals
    simp only [fallback_confidences]
    first
    | (split_ifs <;> norm_num)
    | norm_num

/-- C4 witness at concrete image statistics. -/
theorem C4_scores_in_unit_interval_witness :
    (0 ≤ analyze_py_cleanliness 1 2 3 ∧ analyze_py_cleanliness 1 2 3 ≤ 1) ∧
    (0 ≤ (softmax3 1 2 3).1 ∧ (softmax3 1 2 3).1 ≤ 1) ∧
    (0 ≤ (softmax3 1 2 3).2.1 ∧ (softmax3 1 2 3).2.1 ≤ 1) ∧
    (0 ≤ offline_cleanliness 100 50 ∧ offline_cleanliness 100 50 ≤ 1) ∧
    (0 ≤ offline_rust_confidence 0 ∧ offline_rust_confidence 0 ≤ 1) ∧
    (0 ≤ offline_scratch_confidence 0 ∧ offline_scratch_confidence 0 ≤ 1) ∧
    (0 ≤ offline_dent_confidence 0 ∧ offline_dent_confidence 0 ≤ 1) ∧
    (0 ≤ offline_crack_confidence 0 ∧ offline_crack_confidence 0 ≤ 1) ∧
    (0 ≤ offline_dirt_confidence 100 50 ∧ offline_dirt_confidence 100 50 ≤ 1) ∧
    (0 ≤ aggConfidence [] ∧ aggConfidence [] ≤ 1) ∧
    (0 ≤ yolo_cleanliness (aggConfidence []) ∧
      yolo_cleanliness (aggConfidence []) ≤ 1) ∧
    (0 ≤ scratch_pred_confidence 0 ∧ scratch_pred_confidence 0 ≤ 1) ∧
    (0 ≤ dent_pred_confidence 0 ∧ dent_pred_confidence 0 ≤ 1) ∧
    (0 ≤ rust_pred_confidence 0 ∧ rust_pred_confidence 0 ≤ 1) ∧
    (0 ≤ dirt_pred_confidence 0 ∧ dirt_pred_confidence 0 ≤ 1) ∧
    (0 ≤ local_cleanliness (aggConfidence (([] : List ℚ).map
        dirt_pred_confidence)) ∧
      local_cleanliness (aggConfidence (([] : List ℚ).map
        dirt_pred_confidence)) ≤ 1) ∧
    (0 ≤ fallback_cleanliness [] ∧ fallback_cleanliness [] ≤ 1) ∧
    (0 ≤ (fallback_confidences []).scratches ∧
      (fallback_confidences []).scratches ≤ 1) ∧
    (0 ≤ (fallback_confidences []).dents ∧
      (fallback_confidences []).dents ≤ 1) ∧
    (0 ≤ (fallback_confidences []).rust ∧
      (fallback_confidences []).rust ≤ 1) ∧
    (0 ≤ (fallback_confidences []).dirt ∧
      (fallback_confidences []).dirt ≤ 1) ∧
    (0 ≤ (fallback_confidences []).cracks ∧
      (fallback_confidences []).cracks ≤ 1) :=
  C4_scores_in_unit_interval 1 2 3 (by norm_num) (by norm_num) (by norm_num)
    100 50 0 0 (by norm_num) (by norm_num)
    (by norm_num) (by norm_num) 0 0 0 [] (by simp) [] []

end CarCondition

namespace CarCondition

/-- A bounding rectangle `x, y, w, h` as returned by `cv2.boundingRect` for
one contour. -/
structure BBox where
  x : ℚ
  y : ℚ
  w : ℚ
  h : ℚ
deriving DecidableEq, Repr

/-- Scratch candidates of `local_models_simulator.detect_scratches_opencv`
(lines 53-67) before truncation: contours with bounding-box area > 100 and
elongated shape (`w > h * 2 or h > w * 2`). -/
def scratchCandidates (boxes : List BBox) : List Pred :=
  (boxes.filter fun b =>
      decide (b.w * b.h > 100 ∧ (b.w > b.h * 2 ∨ b.h > b.w * 2))).map
    fun b =>
      { x := b.x + b.w / 2
        y := b.y + b.h / 2
        width := b.w
        height := b.h
        confidence := scratch_pred_confidence (b.w * b.h) }

/-- `detect_scratches_opencv` line 69: `return scratches[:5]`. -/
def detect_scratches_opencv (boxes : List BBox) : List Pred :=
  (scratchCandidates boxes).take 5

/-- Dent candidates of `detect_dents_opencv` (lines 89-105): area in
(1000, 50000) and near-square aspect ratio (`0.5 < w/h < 2.0`). -/
def dentCandidates (boxes : List BBox) : List Pred :=
  (boxes.filter fun b =>
      decide (1000 < b.w * b.h ∧ b.w * b.h < 50000 ∧
        (1/2 < b.w / b.h ∧ b.w / b.h < 2))).map
    fun b =>
      { x := b.x + b.w / 2
        y := b.y + b.h / 2
        width := b.w
        height := b.h
        confidence := dent_pred_confidence (b.w * b.h) }

/-- `detect_dents_opencv` line 107: `return dents[:3]`. -/
def detect_dents_opencv (boxes : List BBox) : List Pred :=
  (dentCandidates boxes).take 3

/-- Rust candidates of `detect_rust_opencv` (lines 134-147): masked contours
with bounding-box area > 2000. -/
def rustCandidates (boxes : List BBox) : List Pred :=
  (boxes.filter fun b => decide (b.w * b.h > 2000)).map
    fun b =>
      { x := b.x + b.w / 2
        y := b.y + b.h / 2
        width := b.w
        height := b.h
        confidence := rust_pred_confidence (b.w * b.h) }

/-- `detect_rust_opencv` line 149: `return rust_areas[:4]`. -/
def detect_rust_opencv (boxes : List BBox) : List Pred :=
  (rustCandidates boxes).take 4

/-- Dirt candidates of `detect_dirt_opencv` (lines 165-178): dark-spot
contours with bounding-box area in (300, 20000). -/
def dirtCandidates (boxes : List BBox) : List Pred :=
  (boxes.filter fun b => decide (300 < b.w * b.h ∧ b.w * b.h < 20000)).map
    fun b =>
      { x := b.x + b.w / 2
        y := b.y + b.h / 2
        width := b.w
        height := b.h
        confidence := dirt_pred_confidence (b.w * b.h) }

/-- `detect_dirt_opencv` line 180: `return dirt_areas[:6]`. -/
def detect_dirt_opencv (boxes : List BBox) : List Pred :=
  (dirtCandidates boxes).take 6

/-- The flattened detail list of `analyze_image_local` (lines 297-310): one
`create_damage_detail` record per truncated detection, appended in the fixed
order scratch, dent, rust, dirt. -/
def localDamageDetails (sB dB rB diB : List BBox) : List DamageDetail :=
  (detect_scratches_opencv sB).map
      (fun p => create_damage_detail p "scratch" "OpenCV Детектор царапин") ++
    (detect_dents_opencv dB).map
      (fun p => create_damage_detail p "dent" "OpenCV Детектор вмятин") ++
    (detect_rust_opencv rB).map
      (fun p => create_damage_detail p "rust" "OpenCV Детектор ржавчины") ++
    (detect_dirt_opencv diB).map
      (fun p => create_damage_detail p "dirt" "OpenCV Детектор грязи")

/-- Seven identical detections labelled "dirt", each a 10×10 box. -/
def sevenDirtDets : List Detection :=
  List.replicate 7
    { className := "dirt"
      classId := 84
      confidence := 1
      x := 0
      y := 0
      width := 10
      height := 10
      area := 100 }

/-- C8 counterexample: the YOLO backend's detail list is NOT capped — seven
dirt detections yield seven dirt detail records, exceeding the claimed
at-most-6 dirt cap, so the caps do not hold for every analysis. -/
theorem C8_yolo_details_uncapped :
    6 < (yoloDamageDetails sevenDirtDets).countP
      (fun dd => dd.type == "dirt") := by
  decide

/-- C8 (amended): in the local-models backend the per-type detail lists are
capped at ≤5 scratch, ≤3 dent, ≤4 rust, ≤6 dirt records; each truncated list
is a prefix of its candidate list, preserving detector order (no
re-sorting); and the flattened detail list therefore carries at most that
many records of each type.  (The YOLO backend's detail list is uncapped.) -/
theorem C8_local_caps_preserve_order (sB dB rB diB : List BBox) :
    ((detect_scratches_opencv sB).length ≤ 5 ∧
      ∃ rest, detect_scratches_opencv sB ++ rest = scratchCandidates sB) ∧
    ((detect_dents_opencv dB).length ≤ 3 ∧
      ∃ rest, detect_dents_opencv dB ++ rest = dentCandidates dB) ∧
    ((detect_rust_opencv rB).length ≤ 4 ∧
      ∃ rest, detect_rust_opencv rB ++ rest = rustCandidates rB) ∧
    ((detect_dirt_opencv diB).length ≤ 6 ∧
      ∃ rest, detect_dirt_opencv diB ++ rest = dirtCandidates diB) ∧
    ((localDamageDetails sB dB rB diB).countP
        (fun dd => dd.type == "scratch") ≤ 5 ∧
      (localDamageDetails sB dB rB diB).countP
        (fun dd => dd.type == "dent") ≤ 3 ∧
      (localDamageDetails sB dB rB diB).countP
        (fun dd => dd.type == "rust") ≤ 4 ∧
      (localDamageDetails sB dB rB diB).countP
        (fun dd => dd.type == "dirt") ≤ 6) := by
  refine ⟨⟨?_, ⟨(scratchCandidates sB).drop 5, List.take_append_drop 5 _⟩⟩,
    ⟨?_, ⟨(dentCandidates dB).drop 3, List.take_append_drop 3 _⟩⟩,
    ⟨?_, ⟨(rustCandidates rB).drop 4, List.take_append_drop 4 _⟩⟩,
    ⟨?_, ⟨(dirtCandidates diB).drop 6, List.take_append_drop 6 _⟩⟩,
    ?_, ?_, ?_, ?_⟩ <;>
  · simp only [localDamageDetails, List.countP_append, List.countP_map,
      Function.comp_def, create_damage_detail, detect_scratches_opencv,
      detect_dents_opencv, detect_rust_opencv, detect_dirt_opencv]
    simp [List.countP_true, List.length_take]
    try omega

end CarCondition

namespace CarCondition

/-- Shape-based reclassification of one out-of-vocabulary box
(`yolo_damage_detector.analyze_damage_from_detections` lines 178-197),
applied only when no vehicle was detected: boxes with `class_id > 80` and
confidence above the 0.4 floor are classified by area ratio and aspect
ratio, with a per-branch confidence discount. -/
def reclassifyUnknownBox (totalArea : ℚ) (d : Detection) :
    Option (String × ℚ) :=
  if d.classId > 80 then
    if d.confidence > 2/5 then
      if d.area / totalArea < 1/100 ∧ d.width / d.height > 3 then
        some ("scratches", d.confidence * (4/5))
      else if d.area / totalArea < 1/50 ∧
          (1/2 < d.width / d.height ∧ d.width / d.height < 2) then
        some ("dents", d.confidence * (7/10))
      else if d.area / totalArea < 1/20 then
        some ("dirt", d.confidence * (3/5))
      else none
    else none
  else none

/-- The reclassification pass of `analyze_damage_from_detections`: it runs
only under `if not car_detected` (line 179). -/
def yoloReclassifications (totalArea : ℚ) (dets : List Detection) :
    List (String × ℚ) :=
  if carDetected dets then []
  else dets.filterMap (reclassifyUnknownBox totalArea)

/-- C9: when no vehicle class was recognized, every box with class id > 80
and confidence above the 0.4 floor is reclassified by shape exactly as
claimed — area ratio < 0.01 with aspect ratio > 3 gives a scratch scaled by
0.8; otherwise area ratio < 0.02 with aspect ratio strictly between 0.5 and
2 gives a dent scaled by 0.7; otherwise area ratio < 0.05 gives dirt scaled
by 0.6 — and every reclassification discount lies in [0.6, 0.8]. -/
theorem C9_shape_reclassification (ta : ℚ) (dets : List Detection)
    (d : Detection) (hcar : carDetected dets = false) :
    yoloReclassifications ta dets = dets.filterMap (reclassifyUnknownBox ta) ∧
    (reclassifyUnknownBox ta d = some ("scratches", d.confidence * (4/5)) ↔
      80 < d.classId ∧ 2/5 < d.confidence ∧
        d.area / ta < 1/100 ∧ 3 < d.width / d.height) ∧
    (reclassifyUnknownBox ta d = some ("dents", d.confidence * (7/10)) ↔
      80 < d.classId ∧ 2/5 < d.confidence ∧
        ¬(d.area / ta < 1/100 ∧ 3 < d.width / d.height) ∧
        d.area / ta < 1/50 ∧
        1/2 < d.width / d.height ∧ d.width / d.height < 2) ∧
    (reclassifyUnknownBox ta d = some ("dirt", d.confidence * (3/5)) ↔
      80 < d.classId ∧ 2/5 < d.confidence ∧
        ¬(d.area / ta < 1/100 ∧ 3 < d.width / d.height) ∧
        ¬(d.area / ta < 1/50 ∧
          (1/2 < d.width / d.height ∧ d.width / d.height < 2)) ∧
        d.area / ta < 1/20) ∧
    (∀ t c', reclassifyUnknownBox ta d = some (t, c') →
      ∃ k, c' = d.confidence * k ∧ 3/5 ≤ k ∧ k ≤ 4/5) := by
  refine ⟨by simp [yoloReclassifications, hcar], ?_, ?_, ?_, ?_⟩
  · unfold reclassifyUnknownBox
    split_ifs with h1 h2 h3 h4 h5 <;> simp_all
  · unfold reclassifyUnknownBox
    split_ifs with h1 h2 h3 h4 h5 <;> simp_all
  · unfold reclassifyUnknownBox
    split_ifs with h1 h2 h3 h4 h5 <;> simp_all
  · intro t c' h
    unfold reclassifyUnknownBox at h
    split_ifs at h with h1 h2 h3 h4 h5 <;>
      simp only [Option.some.injEq, Prod.mk.injEq] at h
    · exact ⟨4/5, h.2.symm, by norm_num, by norm_num⟩
    · exact ⟨7/10, h.2.symm, by norm_num, by norm_num⟩
    · exact ⟨3/5, h.2.symm, by norm_num, by norm_num⟩

/-- A concrete thin, small, high-confidence out-of-vocabulary box. -/
def thinUnknownDet : Detection :=
  { className := "class_81"
    classId := 81
    confidence := 1
    x := 0
    y := 0
    width := 8
    height := 1
    area := 8 }

/-- C9 witness: on an empty scene (no vehicle) and a thin small box of
class id 81 at total area 10000, the reclassification rules apply as
proved. -/
theorem C9_shape_reclassification_witness :
    yoloReclassifications 10000 [] =
      ([] : List Detection).filterMap (reclassifyUnknownBox 10000) ∧
    (reclassifyUnknownBox 10000 thinUnknownDet =
        some ("scratches", thinUnknownDet.confidence * (4/5)) ↔
      80 < thinUnknownDet.classId ∧ 2/5 < thinUnknownDet.confidence ∧
        thinUnknownDet.area / 10000 < 1/100 ∧
        3 < thinUnknownDet.width / thinUnknownDet.height) ∧
    (reclassifyUnknownBox 10000 thinUnknownDet =
        some ("dents", thinUnknownDet.confidence * (7/10)) ↔
      80 < thinUnknownDet.classId ∧ 2/5 < thinUnknownDet.confidence ∧
        ¬(thinUnknownDet.area / 10000 < 1/100 ∧
          3 < thinUnknownDet.width / thinUnknownDet.height) ∧
        thinUnknownDet.area / 10000 < 1/50 ∧
        1/2 < thinUnknownDet.width / thinUnknownDet.height ∧
        thinUnknownDet.width / thinUnknownDet.height < 2) ∧
    (reclassifyUnknownBox 10000 thinUnknownDet =
        some ("dirt", thinUnknownDet.confidence * (3/5)) ↔
      80 < thinUnknownDet.classId ∧ 2/5 < thinUnknownDet.confidence ∧
        ¬(thinUnknownDet.area / 10000 < 1/100 ∧
          3 < thinUnknownDet.width / thinUnknownDet.height) ∧
        ¬(thinUnknownDet.area / 10000 < 1/50 ∧
          (1/2 < thinUnknownDet.width / thinUnknownDet.height ∧
            thinUnknownDet.width / thinUnknownDet.height < 2)) ∧
        thinUnknownDet.area / 10000 < 1/20) ∧
    (∀ t c', reclassifyUnknownBox 10000 thinUnknownDet = some (t, c') →
      ∃ k, c' = thinUnknownDet.confidence * k ∧ 3/5 ≤ k ∧ k ≤ 4/5) :=
  C9_shape_reclassification 10000 [] thinUnknownDet rfl

end CarCondition


namespace CarCondition

/-- C1 counterexample: the decision table of the claim does NOT hold
uniformly across every detector backend.  In the YOLO structured branch,
with aggregated dirt confidence 0.6 the report has exactly one presence
flag set (issue_count = 1), yet its status is "Удовлетворительное"
(Satisfactory), not "Требует внимания" (NeedsAttention) as the claimed
table requires for issue_count ∈ {1,2}. -/
theorem C1_yolo_breaks_uniform_table :
    (yoloFlags (3/5)).issueCount = 1 ∧
    yoloStatus (3/5) = satisfactoryLabel ∧
    yoloStatus (3/5) ≠ needsAttentionLabel := by
  have hd : (2/5 : ℚ) < 3/5 := by norm_num
  have h1 : (yoloFlags (3/5)).issueCount = 1 := by
    simp [yoloFlags, Flags.issueCount, hd]
  refine ⟨h1, ?_, ?_⟩ <;>
    simp [yoloStatus, yoloClassifyStatus, h1, satisfactoryLabel,
      needsAttentionLabel]

/-- C1 (amended): the claimed decision table — Poor iff issue_count ≥ 3,
NeedsAttention iff issue_count ∈ {1,2}, Satisfactory iff issue_count = 0 and
cleanliness < 0.7, Good iff issue_count = 0 and cleanliness ≥ 0.7 — holds for
the shared classifier of `analyze.py`, `offline_analyzer.py` and
`local_models_simulator.py` (`classifyStatus`); the YOLO structured branch
instead uses a 4-tier table: Poor iff ≥ 3, NeedsAttention iff = 2,
Satisfactory iff = 1, Good iff = 0, with no cleanliness tie-break. -/
theorem C1_status_tables (n : ℕ) (c : ℚ) :
    ((classifyStatus n c = poorLabel ↔ 3 ≤ n) ∧
     (classifyStatus n c = needsAttentionLabel ↔ 1 ≤ n ∧ n ≤ 2) ∧
     (classifyStatus n c = satisfactoryLabel ↔ n = 0 ∧ c < 7/10) ∧
     (classifyStatus n c = goodLabel ↔ n = 0 ∧ 7/10 ≤ c)) ∧
    ((yoloClassifyStatus n = poorLabel ↔ 3 ≤ n) ∧
     (yoloClassifyStatus n = needsAttentionLabel ↔ n = 2) ∧
     (yoloClassifyStatus n = satisfactoryLabel ↔ n = 1) ∧
     (yoloClassifyStatus n = goodLabel ↔ n = 0)) := by
  unfold classifyStatus yoloClassifyStatus
  constructor
  · refine ⟨?_, ?_, ?_, ?_⟩ <;>
      · split_ifs with h1 h2 h3 <;>
          simp_all [poorLabel, needsAttentionLabel, satisfactoryLabel,
            goodLabel] <;> omega
  · refine ⟨?_, ?_, ?_, ?_⟩ <;>
      · split_ifs with h1 h2 h3 <;>
          simp_all [poorLabel, needsAttentionLabel, satisfactoryLabel,
            goodLabel] <;> omega

end CarCondition
